import Mathlib

/-!
Shallow embedding of `src/sistema.py`, the in-memory water-consumption
tracking core (users, consumption records, threshold alerts, reporting).
Python floats are modelled as rationals; Python dicts returned by
`obter_estatisticas` and `gerar_relatorio_geral` are modelled as structures,
with an `Option` field for the dict key that is present only on one branch.
-/

namespace Sistema

/-- One consumption record (`Consumo`): a measured amount in liters plus a
timestamp.  The timestamp (Python `datetime`, defaulting to `datetime.now()`)
is modelled as an abstract natural number; no claim depends on it. -/
structure Consumo where
  valor : ℚ
  data : ℕ
  deriving DecidableEq, Repr

/-- A user (`Usuario` / `UsuarioComercial`).  The Python multi-level
inheritance Pessoa → Usuario → UsuarioComercial is flattened: a commercial
user is exactly a user whose `cnpj` field is present, and dispatch of the
polymorphic `exibir_info` is on that field. -/
structure Usuario where
  nome : String
  tipo : String
  cnpj : Option String
  consumos : List Consumo
  deriving DecidableEq, Repr

/-- `Usuario(nome)` with the default `tipo="Residencial"`. -/
def mkUsuario (nome : String) : Usuario :=
  ⟨nome, "Residencial", none, []⟩

/-- `UsuarioComercial(nome, cnpj)`: `tipo` fixed to `"Comercial"`. -/
def mkUsuarioComercial (nome cnpj : String) : Usuario :=
  ⟨nome, "Comercial", some cnpj, []⟩

/-- `Usuario.adicionar_consumo`: appends the record to `consumos`. -/
def Usuario.adicionar_consumo (u : Usuario) (c : Consumo) : Usuario :=
  { u with consumos := u.consumos ++ [c] }

/-- `Usuario.exibir_info` / `UsuarioComercial.exibir_info` (polymorphic). -/
def Usuario.exibir_info (u : Usuario) : String :=
  match u.cnpj with
  | none => "Usuário: " ++ u.nome ++ " | Tipo: " ++ u.tipo
  | some c => "Empresa: " ++ u.nome ++ " | CNPJ: " ++ c ++ " | Tipo: " ++ u.tipo

/-- `Usuario.calcular_total`: `sum(c.valor for c in consumos)`. -/
def Usuario.calcular_total (u : Usuario) : ℚ :=
  (u.consumos.map Consumo.valor).sum

/-- The dictionary returned by `Usuario.obter_estatisticas`. -/
structure Estatisticas where
  total : ℚ
  media : ℚ
  quantidade_registros : ℕ
  maior_consumo : ℚ
  menor_consumo : ℚ
  deriving DecidableEq, Repr

/-- `Usuario.obter_estatisticas`: all-zero dictionary on an empty record
list, otherwise sum / mean / count / `max(valores)` / `min(valores)`.
Python `max`/`min` over a nonempty list fold from the first element. -/
def Usuario.obter_estatisticas (u : Usuario) : Estatisticas :=
  match u.consumos.map Consumo.valor with
  | [] => ⟨0, 0, 0, 0, 0⟩
  | v :: vs =>
    ⟨(v :: vs).sum, (v :: vs).sum / (v :: vs).length, (v :: vs).length,
      vs.foldl max v, vs.foldl min v⟩

/-- Alert message produced by `AlertaSimples.verificar`. -/
def msgSimples (consumo limite : ℚ) : String :=
  "⚠️  CONSUMO ALTO: " ++ toString consumo ++ "L (Limite: " ++ toString limite ++ "L)"

/-- Alert message produced by `AlertaCritico.verificar`. -/
def msgCritico (consumo limite : ℚ) : String :=
  "🚨 CONSUMO CRÍTICO: " ++ toString consumo ++ "L (Limite: " ++ toString limite ++ "L)"

/-- The `Alerta` class hierarchy: a closed variant family
`AlertaSimples` / `AlertaCritico`, each carrying its `_limite`. -/
inductive Alerta where
  | simples (limite : ℚ)
  | critico (limite : ℚ)
  deriving DecidableEq, Repr

/-- Polymorphic `Alerta.verificar(consumo)`: `AlertaSimples` fires when
`consumo > limite`, `AlertaCritico` when `consumo > limite * 1.5`;
otherwise `None`. -/
def Alerta.verificar : Alerta → ℚ → Option String
  | .simples limite, consumo =>
    if consumo > limite then some (msgSimples consumo limite) else none
  | .critico limite, consumo =>
    if consumo > limite * 1.5 then some (msgCritico consumo limite) else none

/-- State of a `GerenciadorConsumo`: the user list and the alert list. -/
structure GerenciadorConsumo where
  usuarios : List Usuario
  alertas : List Alerta
  deriving DecidableEq, Repr

/-- `GerenciadorConsumo.__init__`: no users, and the fixed default policies
`[AlertaSimples(200), AlertaCritico(200)]`. -/
def novoGerenciador : GerenciadorConsumo :=
  ⟨[], [.simples 200, .critico 200]⟩

/-- `GerenciadorConsumo.adicionar_usuario`: appends to `usuarios`. -/
def GerenciadorConsumo.adicionar_usuario (g : GerenciadorConsumo) (u : Usuario) :
    GerenciadorConsumo :=
  { g with usuarios := g.usuarios ++ [u] }

/-- Python `str.lower()`, modelled character-wise over the string's data
(the `Char.toLower` case map; the names exercised here are plain ASCII). -/
def minusculas (s : String) : String :=
  String.mk (s.data.map Char.toLower)

/-- The case-insensitive name test `usuario.nome.lower() == nome.lower()`. -/
def nomeCorresponde (u : Usuario) (nome : String) : Bool :=
  minusculas u.nome == minusculas nome

/-- `GerenciadorConsumo.buscar_usuario`: scans `usuarios` in order and
returns the first case-insensitive name match, else `None`. -/
def GerenciadorConsumo.buscar_usuario (g : GerenciadorConsumo) (nome : String) :
    Option Usuario :=
  g.usuarios.find? (fun u => nomeCorresponde u nome)

/-- `GerenciadorConsumo.listar_usuarios`. -/
def GerenciadorConsumo.listar_usuarios (g : GerenciadorConsumo) : List Usuario :=
  g.usuarios

/-- `GerenciadorConsumo.verificar_alertas`: computes the user total once and
collects, in policy order, every message a policy returns.  (Python keeps
`msg` when it is truthy; the messages are never the empty string, so this is
exactly collecting the `some` results.) -/
def GerenciadorConsumo.verificar_alertas (g : GerenciadorConsumo) (u : Usuario) :
    List String :=
  g.alertas.filterMap (fun a => a.verificar u.calcular_total)

/-- The dictionary returned by `gerar_relatorio_geral`.  The
`usuarios_com_alerta` key is absent (`none`) on the zero-user branch of the
source, hence the `Option`. -/
structure Relatorio where
  total_usuarios : ℕ
  consumo_total_sistema : ℚ
  media_por_usuario : ℚ
  usuarios_com_alerta : Option ℕ
  deriving DecidableEq, Repr

/-- `GerenciadorConsumo.gerar_relatorio_geral`. -/
def GerenciadorConsumo.gerar_relatorio_geral (g : GerenciadorConsumo) : Relatorio :=
  if g.usuarios.length = 0 then
    ⟨0, 0, 0, none⟩
  else
    let consumo_total := (g.usuarios.map Usuario.calcular_total).sum
    ⟨g.usuarios.length, consumo_total, consumo_total / g.usuarios.length,
      some (g.usuarios.countP (fun u => decide (0 < (g.verificar_alertas u).length)))⟩

/-- `t` occurs inside `s` ("the message carries the literal value"). -/
def strContem (s t : String) : Prop :=
  ∃ a b, s = a ++ t ++ b

/- ### Helper lemmas (shared) -/

lemma strContem_intro (s a t b : String) (h : s = a ++ t ++ b) : strContem s t :=
  ⟨a, b, h⟩

lemma foldl_max_mem (v : ℚ) (vs : List ℚ) : vs.foldl max v ∈ v :: vs := by
  induction vs generalizing v with
  | nil => simp
  | cons w ws ih =>
    simp only [List.foldl_cons]
    rcases List.mem_cons.mp (ih (max v w)) with h | h
    · rcases max_choice v w with hm | hm <;> rw [h, hm] <;> simp
    · simp [List.mem_cons, Or.inr (Or.inr h)]

lemma le_foldl_max (v : ℚ) (vs : List ℚ) : ∀ x ∈ v :: vs, x ≤ vs.foldl max v := by
  induction vs generalizing v with
  | nil =>
    intro x hx
    rw [List.mem_singleton] at hx
    simp [hx]
  | cons w ws ih =>
    intro x hx
    simp only [List.foldl_cons]
    rcases List.mem_cons.mp hx with h | h
    · subst h
      exact le_trans (le_max_left _ _) (ih _ _ (List.mem_cons_self _ _))
    · rcases List.mem_cons.mp h with h2 | h2
      · subst h2
        exact le_trans (le_max_right _ _) (ih _ _ (List.mem_cons_self _ _))
      · exact ih (max v w) x (List.mem_cons_of_mem _ h2)

lemma foldl_min_mem (v : ℚ) (vs : List ℚ) : vs.foldl min v ∈ v :: vs := by
  induction vs generalizing v with
  | nil => simp
  | cons w ws ih =>
    simp only [List.foldl_cons]
    rcases List.mem_cons.mp (ih (min v w)) with h | h
    · rcases min_choice v w with hm | hm <;> rw [h, hm] <;> simp
    · simp [List.mem_cons, Or.inr (Or.inr h)]

lemma foldl_min_le (v : ℚ) (vs : List ℚ) : ∀ x ∈ v :: vs, vs.foldl min v ≤ x := by
  induction vs generalizing v with
  | nil =>
    intro x hx
    rw [List.mem_singleton] at hx
    simp [hx]
  | cons w ws ih =>
    intro x hx
    simp only [List.foldl_cons]
    rcases List.mem_cons.mp hx with h | h
    · subst h
      exact le_trans (ih _ _ (List.mem_cons_self _ _)) (min_le_left _ _)
    · rcases List.mem_cons.mp h with h2 | h2
      · subst h2
        exact le_trans (ih _ _ (List.mem_cons_self _ _)) (min_le_right _ _)
      · exact ih (min v w) x (List.mem_cons_of_mem _ h2)

/- ### Concrete states used by witnesses -/

/-- Residential user "Ana" holding records of 150 L and 100 L (total 250). -/
def uAna : Usuario := ⟨"Ana", "Residencial", none, [⟨150, 0⟩, ⟨100, 0⟩]⟩

/-- Residential user "ANA" (duplicate name, different case) with no records. -/
def uAnaDup : Usuario := ⟨"ANA", "Residencial", none, []⟩

/-- Residential user "Beto" holding one record of 350 L. -/
def uBeto : Usuario := ⟨"Beto", "Residencial", none, [⟨350, 0⟩]⟩

/-- A manager holding `uAna`. -/
def gAna : GerenciadorConsumo := novoGerenciador.adicionar_usuario uAna

/-- A manager holding `uAna` then the duplicate-named `uAnaDup`. -/
def gDup : GerenciadorConsumo := gAna.adicionar_usuario uAnaDup

/- ### Claims -/

/-- C2: the Standard policy fires iff `total > threshold`, the Critical
policy fires iff `total > threshold * 1.5` (otherwise each returns `None`),
and every returned message carries the literal total and the literal
threshold. -/
theorem alerta_verificar_spec (limite consumo : ℚ) :
    ((Alerta.simples limite).verificar consumo ≠ none ↔ limite < consumo) ∧
    ((Alerta.critico limite).verificar consumo ≠ none ↔ limite * 1.5 < consumo) ∧
    (∀ msg, (Alerta.simples limite).verificar consumo = some msg →
      strContem msg (toString consumo) ∧ strContem msg (toString limite)) ∧
    (∀ msg, (Alerta.critico limite).verificar consumo = some msg →
      strContem msg (toString consumo) ∧ strContem msg (toString limite)) := by
  refine ⟨?_, ?_, ?_, ?_⟩
  · by_cases h : limite < consumo <;> simp [Alerta.verificar, h]
  · by_cases h : limite * 1.5 < consumo <;> simp [Alerta.verificar, h]
  · intro msg hmsg
    by_cases h : limite < consumo
    · simp only [Alerta.verificar, gt_iff_lt, if_pos h, Option.some.injEq] at hmsg
      subst hmsg
      constructor
      · exact strContem_intro _ "⚠️  CONSUMO ALTO: " _
          ("L (Limite: " ++ toString limite ++ "L)")
          (by simp [msgSimples, String.append_assoc])
      · exact strContem_intro _ ("⚠️  CONSUMO ALTO: " ++ toString consumo ++ "L (Limite: ")
          _ "L)" (by simp [msgSimples, String.append_assoc])
    · simp [Alerta.verificar, h] at hmsg
  · intro msg hmsg
    by_cases h : limite * 1.5 < consumo
    · simp only [Alerta.verificar, gt_iff_lt, if_pos h, Option.some.injEq] at hmsg
      subst hmsg
      constructor
      · exact strContem_intro _ "🚨 CONSUMO CRÍTICO: " _
          ("L (Limite: " ++ toString limite ++ "L)")
          (by simp [msgCritico, String.append_assoc])
      · exact strContem_intro _ ("🚨 CONSUMO CRÍTICO: " ++ toString consumo ++ "L (Limite: ")
          _ "L)" (by simp [msgCritico, String.append_assoc])
    · simp [Alerta.verificar, h] at hmsg

/-- Witness for C2 at threshold 200 and total 250. -/
theorem alerta_verificar_spec_witness :
    (Alerta.simples 200).verificar 250 ≠ none ∧
    strContem (msgSimples 250 200) (toString (250 : ℚ)) ∧
    strContem (msgSimples 250 200) (toString (200 : ℚ)) := by
  have h := alerta_verificar_spec 200 250
  refine ⟨h.1.mpr (by norm_num), ?_, ?_⟩
  · exact (h.2.2.1 (msgSimples 250 200) (by norm_num [Alerta.verificar])).1
  · exact (h.2.2.1 (msgSimples 250 200) (by norm_num [Alerta.verificar])).2

/-- C3: `obter_estatisticas` returns the all-zero dictionary on an empty
record collection; otherwise its `total` is the sum of the amounts, its
count is the number of records, its mean is `total / count`, and
`maior_consumo` / `menor_consumo` are the true maximum and minimum of the
amounts. -/
theorem obter_estatisticas_spec (u : Usuario) :
    (u.consumos = [] → u.obter_estatisticas = ⟨0, 0, 0, 0, 0⟩) ∧
    (u.consumos ≠ [] →
      u.obter_estatisticas.total = (u.consumos.map Consumo.valor).sum ∧
      u.obter_estatisticas.quantidade_registros = u.consumos.length ∧
      u.obter_estatisticas.media =
        u.obter_estatisticas.total / u.obter_estatisticas.quantidade_registros ∧
      (u.obter_estatisticas.maior_consumo ∈ u.consumos.map Consumo.valor ∧
        ∀ x ∈ u.consumos.map Consumo.valor, x ≤ u.obter_estatisticas.maior_consumo) ∧
      (u.obter_estatisticas.menor_consumo ∈ u.consumos.map Consumo.valor ∧
        ∀ x ∈ u.consumos.map Consumo.valor, u.obter_estatisticas.menor_consumo ≤ x)) := by
  constructor
  · intro h
    simp [Usuario.obter_estatisticas, h]
  · intro h
    rcases hm : u.consumos.map Consumo.valor with _ | ⟨v, vs⟩
    · exact absurd (List.map_eq_nil_iff.mp hm) h
    · have hq : u.consumos.length = vs.length + 1 := by
        have := congrArg List.length hm
        simpa using this
      have e : u.obter_estatisticas =
          ⟨(v :: vs).sum, (v :: vs).sum / (v :: vs).length, (v :: vs).length,
            vs.foldl max v, vs.foldl min v⟩ := by
        simp only [Usuario.obter_estatisticas, hm]
      rw [e]
      exact ⟨rfl, by simp [hq], rfl,
        ⟨foldl_max_mem v vs, le_foldl_max v vs⟩,
        ⟨foldl_min_mem v vs, foldl_min_le v vs⟩⟩

/-- Witness for C3 at a user with records 150 L and 100 L and at a fresh
user with no records. -/
theorem obter_estatisticas_spec_witness :
    (mkUsuario "Caio").obter_estatisticas = ⟨0, 0, 0, 0, 0⟩ ∧
    uAna.obter_estatisticas.total = (uAna.consumos.map Consumo.valor).sum ∧
    uAna.obter_estatisticas.maior_consumo ∈ uAna.consumos.map Consumo.valor := by
  refine ⟨(obter_estatisticas_spec (mkUsuario "Caio")).1 rfl, ?_, ?_⟩
  · exact ((obter_estatisticas_spec uAna).2 (by decide)).1
  · exact ((obter_estatisticas_spec uAna).2 (by decide)).2.2.2.1.1

/-- C1: under the default policies (threshold 200), `verificar_alertas` is
empty iff the user total is at most 200, is exactly the Standard message iff
the total lies in (200, 300], and is exactly Standard followed by Critical
iff the total exceeds 300. -/
theorem verificar_alertas_limiares (g : GerenciadorConsumo) (u : Usuario)
    (h : g.alertas = [.simples 200, .critico 200]) :
    (g.verificar_alertas u = [] ↔ u.calcular_total ≤ 200) ∧
    (g.verificar_alertas u = [msgSimples u.calcular_total 200] ↔
      200 < u.calcular_total ∧ u.calcular_total ≤ 300) ∧
    (g.verificar_alertas u =
        [msgSimples u.calcular_total 200, msgCritico u.calcular_total 200] ↔
      300 < u.calcular_total) := by
  have h15 : (200 : ℚ) * 1.5 = 300 := by norm_num
  rcases lt_trichotomy u.calcular_total 200 with h1 | h1 | h1
  · have hn1 : ¬ (200 : ℚ) < u.calcular_total := not_lt.mpr h1.le
    have hn2 : ¬ (300 : ℚ) < u.calcular_total :=
      not_lt.mpr (le_trans h1.le (by norm_num))
    have e : g.verificar_alertas u = [] := by
      simp [GerenciadorConsumo.verificar_alertas, h, Alerta.verificar, h15, hn1, hn2]
    rw [e]
    refine ⟨⟨fun _ => h1.le, fun _ => rfl⟩, ⟨fun hc => absurd hc (by simp), ?_⟩,
      ⟨fun hc => absurd hc (by simp), fun hc => absurd hc hn2⟩⟩
    intro hc
    exact absurd hc.1 hn1
  · have hn1 : ¬ (200 : ℚ) < u.calcular_total := not_lt.mpr h1.le
    have hn2 : ¬ (300 : ℚ) < u.calcular_total := by rw [h1]; norm_num
    have e : g.verificar_alertas u = [] := by
      simp [GerenciadorConsumo.verificar_alertas, h, Alerta.verificar, h15, hn1, hn2]
    rw [e]
    refine ⟨⟨fun _ => h1.le, fun _ => rfl⟩, ⟨fun hc => absurd hc (by simp), ?_⟩,
      ⟨fun hc => absurd hc (by simp), fun hc => absurd hc hn2⟩⟩
    intro hc
    exact absurd hc.1 hn1
  · rcases le_or_lt u.calcular_total 300 with h2 | h2
    · have e : g.verificar_alertas u = [msgSimples u.calcular_total 200] := by
        simp [GerenciadorConsumo.verificar_alertas, h, Alerta.verificar, h15, h1,
          not_lt.mpr h2]
      rw [e]
      refine ⟨⟨fun hc => absurd hc (by simp), fun hc => absurd (hc.trans_lt h1) (by simp)⟩,
        ⟨fun _ => ⟨h1, h2⟩, fun _ => rfl⟩,
        ⟨fun hc => absurd hc (by simp), fun hc => absurd hc (not_lt.mpr h2)⟩⟩
    · have e : g.verificar_alertas u =
          [msgSimples u.calcular_total 200, msgCritico u.calcular_total 200] := by
        simp [GerenciadorConsumo.verificar_alertas, h, Alerta.verificar, h15, h1, h2]
      rw [e]
      refine ⟨⟨fun hc => absurd hc (by simp), fun hc => absurd (h2.trans_le hc) (by norm_num)⟩,
        ⟨fun hc => absurd hc (by simp), fun hc => absurd hc.2 (not_le.mpr h2)⟩,
        ⟨fun _ => h2, fun _ => rfl⟩⟩

/-- Witness for C1: a manager with default policies and the 250 L user. -/
theorem verificar_alertas_limiares_witness :
    gAna.verificar_alertas uAna = [msgSimples uAna.calcular_total 200] :=
  (verificar_alertas_limiares gAna uAna rfl).2.1.mpr (by norm_num [Usuario.calcular_total, uAna])

/-- C7: `verificar_alertas` evaluates the configured policies against the
single total `calcular_total` in the fixed order Standard before Critical,
keeps exactly the non-`None` results in that order, and is empty iff no
policy fires. -/
theorem verificar_alertas_ordem (g : GerenciadorConsumo) (u : Usuario)
    (h : g.alertas = [.simples 200, .critico 200]) :
    g.verificar_alertas u =
      [(Alerta.simples 200).verificar u.calcular_total,
        (Alerta.critico 200).verificar u.calcular_total].filterMap id ∧
    (g.verificar_alertas u = [] ↔
      ∀ a ∈ g.alertas, a.verificar u.calcular_total = none) := by
  constructor
  · rw [GerenciadorConsumo.verificar_alertas, h]
    rcases hs : (Alerta.simples 200).verificar u.calcular_total with _ | m1 <;>
      rcases hc : (Alerta.critico 200).verificar u.calcular_total with _ | m2 <;>
        simp [List.filterMap_cons, hs, hc]
  · rw [GerenciadorConsumo.verificar_alertas]
    exact List.filterMap_eq_nil_iff

/-- Witness for C7 at the default manager and the 250 L user. -/
theorem verificar_alertas_ordem_witness :
    gAna.verificar_alertas uAna =
      [(Alerta.simples 200).verificar uAna.calcular_total,
        (Alerta.critico 200).verificar uAna.calcular_total].filterMap id :=
  (verificar_alertas_ordem gAna uAna rfl).1

/-- C10: under the default policies the alert list has length at most 2, and
whenever it contains the Critical message it also contains the Standard
message — the Critical alert never fires alone, since both policies share
threshold 200 and 200 × 1.5 > 200. -/
theorem alerta_critico_nunca_sozinho (g : GerenciadorConsumo) (u : Usuario)
    (h : g.alertas = [.simples 200, .critico 200]) :
    (g.verificar_alertas u).length ≤ 2 ∧
    (msgCritico u.calcular_total 200 ∈ g.verificar_alertas u →
      msgSimples u.calcular_total 200 ∈ g.verificar_alertas u) := by
  constructor
  · calc (g.verificar_alertas u).length ≤ g.alertas.length :=
          List.length_filterMap_le _ _
    _ ≤ 2 := by rw [h]; simp
  · intro hcrit
    have h200 : 200 < u.calcular_total := by
      rcases List.mem_filterMap.mp hcrit with ⟨a, ha, hver⟩
      rw [h] at ha
      rcases List.mem_cons.mp ha with rfl | ha2
      · by_cases hlt : 200 < u.calcular_total
        · exact hlt
        · simp [Alerta.verificar, hlt] at hver
      · rcases List.mem_singleton.mp ha2 with rfl
        by_cases hlt : (200 : ℚ) * 1.5 < u.calcular_total
        · linarith
        · simp [Alerta.verificar, hlt] at hver
    exact List.mem_filterMap.mpr ⟨.simples 200, by rw [h]; simp,
      by simp [Alerta.verificar, h200]⟩

/-- Witness for C10: a manager with default policies and a 350 L user, for
whom the Critical message is present. -/
theorem alerta_critico_nunca_sozinho_witness :
    msgSimples uBeto.calcular_total 200 ∈ novoGerenciador.verificar_alertas uBeto :=
  (alerta_critico_nunca_sozinho novoGerenciador uBeto rfl).2
    (by simp [GerenciadorConsumo.verificar_alertas, novoGerenciador, Alerta.verificar,
      Usuario.calcular_total, uBeto]; norm_num)

/-- C4: with at least one user, the general report's total is the sum of
every user's total, its mean is that total divided by the user count, and
`usuarios_com_alerta` is present and counts the users whose alert list is
non-empty. -/
theorem gerar_relatorio_geral_spec (g : GerenciadorConsumo) (h : g.usuarios ≠ []) :
    g.gerar_relatorio_geral.total_usuarios = g.usuarios.length ∧
    g.gerar_relatorio_geral.consumo_total_sistema =
      (g.usuarios.map Usuario.calcular_total).sum ∧
    g.gerar_relatorio_geral.media_por_usuario =
      (g.usuarios.map Usuario.calcular_total).sum / (g.usuarios.length : ℚ) ∧
    g.gerar_relatorio_geral.usuarios_com_alerta =
      some ((g.usuarios.filter (fun u => !(g.verificar_alertas u).isEmpty)).length) := by
  have hl : ¬ g.usuarios.length = 0 := fun hc => h (List.length_eq_zero.mp hc)
  have e : g.gerar_relatorio_geral =
      ⟨g.usuarios.length, (g.usuarios.map Usuario.calcular_total).sum,
        (g.usuarios.map Usuario.calcular_total).sum / (g.usuarios.length : ℚ),
        some (g.usuarios.countP (fun u => decide (0 < (g.verificar_alertas u).length)))⟩ := by
    rw [GerenciadorConsumo.gerar_relatorio_geral, if_neg hl]
  have hp : (fun u => decide (0 < (g.verificar_alertas u).length)) =
      (fun u => !(g.verificar_alertas u).isEmpty) := by
    funext u
    rcases ha : g.verificar_alertas u with _ | ⟨m, ms⟩ <;> simp [ha]
  rw [e, List.countP_eq_length_filter, hp]
  exact ⟨rfl, rfl, rfl, rfl⟩

/-- Witness for C4 at a one-user manager. -/
theorem gerar_relatorio_geral_spec_witness :
    gAna.gerar_relatorio_geral.consumo_total_sistema =
      (gAna.usuarios.map Usuario.calcular_total).sum :=
  (gerar_relatorio_geral_spec gAna (by decide)).2.1

/-- C5 (counterexample): on zero users the report does NOT carry the
`usuarios_com_alerta` field at all, so it is not the four-field dictionary
with that field 0 that the claim asserts. -/
theorem relatorio_vazio_counterexample :
    novoGerenciador.gerar_relatorio_geral ≠ ⟨0, 0, 0, some 0⟩ := by
  decide

/-- C5 (amended): with zero users the report is exactly
`{total_usuarios := 0, consumo_total_sistema := 0, media_por_usuario := 0}`
with the `usuarios_com_alerta` key absent; in particular no division by the
zero user count is performed and a result is returned. -/
theorem relatorio_vazio_spec (g : GerenciadorConsumo) (h : g.usuarios = []) :
    g.gerar_relatorio_geral = ⟨0, 0, 0, none⟩ := by
  rw [GerenciadorConsumo.gerar_relatorio_geral, if_pos (by rw [h]; rfl)]

/-- Witness for C5's amended claim at the freshly constructed manager. -/
theorem relatorio_vazio_spec_witness :
    novoGerenciador.gerar_relatorio_geral = ⟨0, 0, 0, none⟩ :=
  relatorio_vazio_spec novoGerenciador rfl

/-- C6: `buscar_usuario` returns `None` iff no stored user matches the
queried name case-insensitively; a returned user is a match preceded only by
non-matches (the first match in insertion order); `adicionar_usuario` always
appends (duplicate names permitted); and lookup after an append still
prefers the earliest-added match. -/
theorem buscar_usuario_spec (g : GerenciadorConsumo) (nome : String) (v : Usuario) :
    (g.buscar_usuario nome = none ↔
      ∀ u ∈ g.usuarios, nomeCorresponde u nome = false) ∧
    (∀ u, g.buscar_usuario nome = some u ↔
      nomeCorresponde u nome = true ∧
      ∃ l₁ l₂, g.usuarios = l₁ ++ u :: l₂ ∧
        ∀ w ∈ l₁, nomeCorresponde w nome = false) ∧
    ((g.adicionar_usuario v).usuarios = g.usuarios ++ [v]) ∧
    ((g.adicionar_usuario v).buscar_usuario nome =
      (g.buscar_usuario nome).or
        (if nomeCorresponde v nome then some v else none)) := by
  refine ⟨?_, ?_, rfl, ?_⟩
  · rw [GerenciadorConsumo.buscar_usuario, List.find?_eq_none]
    simp
  · intro u
    rw [GerenciadorConsumo.buscar_usuario, List.find?_eq_some]
    simp
  · rw [GerenciadorConsumo.buscar_usuario, GerenciadorConsumo.adicionar_usuario,
      GerenciadorConsumo.buscar_usuario]
    simp only [List.find?_append]
    congr 1
    rcases hv : nomeCorresponde v nome with _ | _ <;> simp [List.find?_cons, hv]

/-- Witness for C6: with two users both named "ana" up to case, lookup
returns the earliest-added one. -/
theorem buscar_usuario_spec_witness :
    gDup.buscar_usuario "aNa" = some uAna :=
  ((buscar_usuario_spec gDup "aNa" uAna).2.1 uAna).mpr
    ⟨by decide, [], [uAnaDup], by decide, by decide⟩

/-- C8 (counterexample): the base user's description is NOT bare
`"<name> | Tipo: <category>"` — the rendering carries a `"Usuário: "`
prefix. -/
theorem exibir_info_counterexample :
    ¬ ((mkUsuario "Ana").exibir_info =
      (mkUsuario "Ana").nome ++ " | Tipo: " ++ (mkUsuario "Ana").tipo) := by
  decide

/-- C8 (amended): the base user's description is exactly
`"Usuário: <name> | Tipo: <category>"`, and a commercial user's is exactly
`"Empresa: <name> | CNPJ: <id> | Tipo: <category>"`; in particular a
commercial description carries the name, the business id, and the category,
and `mkUsuarioComercial` fixes the category to `"Comercial"`. -/
theorem exibir_info_spec (u : Usuario) (nome cnpj : String) :
    (u.cnpj = none →
      u.exibir_info = "Usuário: " ++ u.nome ++ " | Tipo: " ++ u.tipo) ∧
    (∀ c, u.cnpj = some c →
      u.exibir_info = "Empresa: " ++ u.nome ++ " | CNPJ: " ++ c ++ " | Tipo: " ++ u.tipo ∧
      strContem u.exibir_info u.nome ∧ strContem u.exibir_info c ∧
      strContem u.exibir_info u.tipo) ∧
    ((mkUsuarioComercial nome cnpj).tipo = "Comercial" ∧
      (mkUsuarioComercial nome cnpj).cnpj = some cnpj ∧
      (mkUsuarioComercial nome cnpj).nome = nome) := by
  refine ⟨?_, ?_, rfl, rfl, rfl⟩
  · intro h
    rw [Usuario.exibir_info, h]
  · intro c h
    have e : u.exibir_info =
        "Empresa: " ++ u.nome ++ " | CNPJ: " ++ c ++ " | Tipo: " ++ u.tipo := by
      rw [Usuario.exibir_info, h]
    refine ⟨e, ?_, ?_, ?_⟩
    · exact strContem_intro _ "Empresa: " _ (" | CNPJ: " ++ c ++ " | Tipo: " ++ u.tipo)
        (by rw [e]; simp [String.append_assoc])
    · exact strContem_intro _ ("Empresa: " ++ u.nome ++ " | CNPJ: ") _
        (" | Tipo: " ++ u.tipo) (by rw [e]; simp [String.append_assoc])
    · exact strContem_intro _ ("Empresa: " ++ u.nome ++ " | CNPJ: " ++ c ++ " | Tipo: ")
        _ "" (by rw [e]; simp [String.append_assoc])

/-- Witness for C8's amended claim at the commercial user "Acme" / "12.345". -/
theorem exibir_info_spec_witness :
    (mkUsuarioComercial "Acme" "12.345").exibir_info =
      "Empresa: " ++ "Acme" ++ " | CNPJ: " ++ "12.345" ++ " | Tipo: " ++
        (mkUsuarioComercial "Acme" "12.345").tipo :=
  ((exibir_info_spec (mkUsuarioComercial "Acme" "12.345") "Acme" "12.345").2.1
    "12.345" rfl).1

/-- C9: `adicionar_consumo` appends the record at the end of `consumos`,
leaves every previously stored record at its original position, grows the
collection by one, never removes or reorders entries (the old list stays a
prefix), touches no other field, and is total (no error conditions). -/
theorem adicionar_consumo_spec (u : Usuario) (c : Consumo) :
    (u.adicionar_consumo c).consumos = u.consumos ++ [c] ∧
    (∀ i, i < u.consumos.length →
      (u.adicionar_consumo c).consumos[i]? = u.consumos[i]?) ∧
    (u.adicionar_consumo c).consumos.length = u.consumos.length + 1 ∧
    (∃ resto, (u.adicionar_consumo c).consumos = u.consumos ++ resto) ∧
    (u.adicionar_consumo c).nome = u.nome ∧
    (u.adicionar_consumo c).tipo = u.tipo ∧
    (u.adicionar_consumo c).cnpj = u.cnpj := by
  refine ⟨rfl, ?_, by simp [Usuario.adicionar_consumo], ⟨[c], rfl⟩, rfl, rfl, rfl⟩
  intro i hi
  show (u.consumos ++ [c])[i]? = u.consumos[i]?
  rw [List.getElem?_append, if_pos hi]

/-- Witness for C9: appending a 5 L record to the 2-record user keeps the
record at position 0 unchanged. -/
theorem adicionar_consumo_spec_witness :
    (uAna.adicionar_consumo ⟨5, 0⟩).consumos[0]? = uAna.consumos[0]? :=
  (adicionar_consumo_spec uAna ⟨5, 0⟩).2.1 0 (by decide)

end Sistema
